import Mathlib

/-!
Shallow embedding of `src/lib/call-quality-scorecard-stack.ts` from the
call-quality-analyzer repository: a CDK stack wiring an S3 bucket, a config
deployment, three IAM policies and two Lambda functions (the Transcription
Stage `audio-to-text` and the Scoring Stage `call-scoring`), each triggered
by S3 object-created notifications filtered by key prefix.

The stack is modelled as concrete data: each `createX` method of the
TypeScript class becomes a Lean definition producing the corresponding
record, and the constructor becomes `mkStack`, parameterised by the
deploy-time strings (region, account, generated bucket name) that CDK
resolves at synthesis time.
-/

/-- One IAM policy statement: a list of action patterns and resource
patterns, as passed to `new iam.PolicyStatement({...})` in the source. -/
structure PolicyStatement where
  actions : List String
  resources : List String
deriving DecidableEq, Repr

/-- An IAM policy, as built by `new iam.Policy(...)`. -/
structure Policy where
  policyName : String
  statements : List PolicyStatement
deriving DecidableEq, Repr

/-- CDK `RemovalPolicy`. -/
inductive RemovalPolicy where
  | retain
  | destroy
deriving DecidableEq, Repr

/-- S3 notification event types used by the stack (`s3.EventType`). -/
inductive EventType where
  | objectCreated
  | objectRemoved
deriving DecidableEq, BEq, Repr

/-- An S3 notification key filter; the source only ever sets the key-prefix
field (`filters: [{ prefix: 'voices/' }]` etc.). -/
structure S3KeyFilter where
  pre : String
deriving DecidableEq, Repr

/-- An `eventsources.S3EventSource`: the bucket it listens on, the event
types, and the key filters. -/
structure S3EventSource where
  bucketName : String
  events : List EventType
  filters : List S3KeyFilter
deriving DecidableEq, Repr

/-- A configured invocation path for a Lambda function. The source only
ever wires `s3Event` sources; the other constructors exist so that the
absence of EventBridge rules (commented out in the source) and of direct
function-to-function invocation is expressible. -/
inductive TriggerConfig where
  | s3Event : S3EventSource → TriggerConfig
  | eventBridgeRule : String → TriggerConfig
  | directInvoke : String → TriggerConfig
deriving DecidableEq, Repr

/-- An S3 lifecycle rule scheduling automatic object expiration. The source
never configures one; the type exists so "no automatic deletion" is a
statement about data, not an omission. -/
structure LifecycleRule where
  expirationDays : Nat
deriving DecidableEq, Repr

/-- The S3 bucket, as configured by `createBucket`. -/
structure Bucket where
  name : String
  blockPublicAccess : Bool
  removalPolicy : RemovalPolicy
  lifecycleRules : List LifecycleRule
deriving DecidableEq, Repr

/-- An `s3deploy.BucketDeployment`, as configured by `uploadConfigToBucket`. -/
structure BucketDeployment where
  sources : List String
  destinationBucket : String
  destinationKeyPre : String
  retainOnDelete : Bool
deriving DecidableEq, Repr

/-- A Lambda function together with the stack-level wiring applied to it:
inline policies attached to its execution role, and its event sources. -/
structure LambdaFunction where
  functionName : String
  runtime : String
  entry : String
  memorySize : Nat
  timeoutSeconds : Nat
  environment : List (String × String)
  logRetentionDays : Nat
  removalPolicy : RemovalPolicy
  inlinePolicies : List Policy
  triggers : List TriggerConfig
deriving DecidableEq, Repr

/-- `this.bucket.bucketArn`. -/
def bucketArn (b : Bucket) : String := "arn:aws:s3:::" ++ b.name

/-- `createBucket`: block-all public access, `RemovalPolicy.RETAIN`, and no
lifecycle rules (none are passed in the source). -/
def createBucket (bucketName : String) : Bucket :=
  { name := bucketName
    blockPublicAccess := true
    removalPolicy := RemovalPolicy.retain
    lifecycleRules := [] }

/-- `uploadConfigToBucket`: deploys the local `./config` asset into the
stack bucket under destination key prefix `config`, retained on delete. -/
def uploadConfigToBucket (bucket : Bucket) : BucketDeployment :=
  { sources := ["./config"]
    destinationBucket := bucket.name
    destinationKeyPre := "config"
    retainOnDelete := true }

/-- The key a deployed config file lands at: the destination key prefix,
a slash, and the file's name (aws-s3-deployment sync semantics). -/
def deployedKey (d : BucketDeployment) (file : String) : String :=
  d.destinationKeyPre ++ "/" ++ file

/-- `createS3Policy`: `s3:*` on the bucket ARN and every object in it. -/
def createS3Policy (bucket : Bucket) : Policy :=
  { policyName := "S3Policy"
    statements :=
      [ { actions := ["s3:*"]
          resources := [bucketArn bucket, bucketArn bucket ++ "/*"] } ] }

/-- `createTranscribePolicy`: `transcribe:*` on resources in the stack's
own region and account. -/
def createTranscribePolicy (region account : String) : Policy :=
  { policyName := "TranscribePolicy"
    statements :=
      [ { actions := ["transcribe:*"]
          resources :=
            ["arn:aws:transcribe:" ++ region ++ ":" ++ account ++ ":*"] } ] }

/-- `createBedrockRuntimePolicy`: the two invoke actions on resource `"*"`
(the region-scoped alternatives are commented out in the source). -/
def createBedrockRuntimePolicy : Policy :=
  { policyName := "BedrockRuntimePolicy"
    statements :=
      [ { actions := ["bedrock:InvokeModel", "bedrock:InvokeModelWithResponseStream"]
          resources := ["*"] } ] }

/-- `lambdaFunction.role?.attachInlinePolicy(p)`. -/
def attachInlinePolicy (f : LambdaFunction) (p : Policy) : LambdaFunction :=
  { f with inlinePolicies := f.inlinePolicies ++ [p] }

/-- `lambdaFunction.applyRemovalPolicy(rp)`. -/
def applyRemovalPolicy (f : LambdaFunction) (rp : RemovalPolicy) : LambdaFunction :=
  { f with removalPolicy := rp }

/-- `lambdaFunction.addEventSource(t)`. -/
def addEventSource (f : LambdaFunction) (t : TriggerConfig) : LambdaFunction :=
  { f with triggers := f.triggers ++ [t] }

/-- `createLambdaS3TriggerTranscribeFunction`: the `audio-to-text` function
(Transcription Stage), 15 s timeout, `OUTPUT_BUCKET` environment, with the
S3 and Transcribe policies attached and one object-created event source
filtered on key prefix `voices/`. -/
def createLambdaS3TriggerTranscribeFunction
    (bucket : Bucket) (s3Policy transcribePolicy : Policy) : LambdaFunction :=
  let f : LambdaFunction :=
    { functionName := "audio-to-text"
      runtime := "nodejs16.x"
      entry := "lambda/audio-to-text.js"
      memorySize := 128
      timeoutSeconds := 15
      environment := [("OUTPUT_BUCKET", bucket.name)]
      logRetentionDays := 7
      removalPolicy := RemovalPolicy.destroy
      inlinePolicies := []
      triggers := [] }
  let f := applyRemovalPolicy f RemovalPolicy.destroy
  let f := attachInlinePolicy f s3Policy
  let f := attachInlinePolicy f transcribePolicy
  addEventSource f
    (TriggerConfig.s3Event
      { bucketName := bucket.name
        events := [EventType.objectCreated]
        filters := [{ pre := "voices/" }] })

/-- `createLambdaS3TriggerBedrockFunction`: the `call-scoring` function
(Scoring Stage), 120 s timeout, `OUTPUT_BUCKET` environment, with the S3,
Transcribe AND Bedrock policies attached and one object-created event
source filtered on key prefix `transcription/`. The EventBridge rule and
direct-invocation permission are commented out in the source, so no such
trigger is added here. -/
def createLambdaS3TriggerBedrockFunction
    (bucket : Bucket) (s3Policy transcribePolicy bedrockRuntimePolicy : Policy) :
    LambdaFunction :=
  let f : LambdaFunction :=
    { functionName := "call-scoring"
      runtime := "nodejs16.x"
      entry := "lambda/call-scoring.js"
      memorySize := 128
      timeoutSeconds := 120
      environment := [("OUTPUT_BUCKET", bucket.name)]
      logRetentionDays := 7
      removalPolicy := RemovalPolicy.destroy
      inlinePolicies := []
      triggers := [] }
  let f := applyRemovalPolicy f RemovalPolicy.destroy
  let f := attachInlinePolicy f s3Policy
  let f := attachInlinePolicy f transcribePolicy
  let f := attachInlinePolicy f bedrockRuntimePolicy
  addEventSource f
    (TriggerConfig.s3Event
      { bucketName := bucket.name
        events := [EventType.objectCreated]
        filters := [{ pre := "transcription/" }] })

/-- The whole `CallQualityScorecardStack` after its constructor has run. -/
structure CallQualityScorecardStack where
  bucket : Bucket
  configDeployment : BucketDeployment
  s3Policy : Policy
  transcribePolicy : Policy
  bedrockRuntimePolicy : Policy
  lambdaAudioToText : LambdaFunction
  lambdaCallAnalysis : LambdaFunction
deriving DecidableEq, Repr

/-- The stack constructor, parameterised by the deploy-time region, account
and the bucket name CDK generates. -/
def mkStack (region account bucketName : String) : CallQualityScorecardStack :=
  let bucket := createBucket bucketName
  let configDeployment := uploadConfigToBucket bucket
  let s3Policy := createS3Policy bucket
  let transcribePolicy := createTranscribePolicy region account
  let bedrockRuntimePolicy := createBedrockRuntimePolicy
  { bucket := bucket
    configDeployment := configDeployment
    s3Policy := s3Policy
    transcribePolicy := transcribePolicy
    bedrockRuntimePolicy := bedrockRuntimePolicy
    lambdaAudioToText :=
      createLambdaS3TriggerTranscribeFunction bucket s3Policy transcribePolicy
    lambdaCallAnalysis :=
      createLambdaS3TriggerBedrockFunction bucket s3Policy transcribePolicy
        bedrockRuntimePolicy }

/-! ### Pattern and policy semantics -/

/-- Character-list prefix test (`listHasPre p s` iff `p` is a prefix of `s`). -/
def listHasPre : List Char → List Char → Bool
  | [], _ => true
  | _ :: _, [] => false
  | p :: ps, c :: cs => p == c && listHasPre ps cs

/-- String prefix test used for S3 notification key filters. -/
def strHasPre (p s : String) : Bool := listHasPre p.data s.data

/-- If the pattern's last character is `*`, return the stem before it. All
IAM patterns occurring in this stack are either exact or end in `*`. -/
def splitStar : List Char → Option (List Char)
  | [] => none
  | [c] => if c = '*' then some [] else none
  | c :: c2 :: cs => (splitStar (c2 :: cs)).map (fun l => c :: l)

/-- IAM wildcard matching for the patterns this stack uses: a trailing `*`
matches any suffix; otherwise the pattern must equal the candidate. -/
def wildcardMatches (pat s : List Char) : Bool :=
  match splitStar pat with
  | some stem => listHasPre stem s
  | none => pat == s

/-- String-level pattern match. -/
def patMatches (pat s : String) : Bool := wildcardMatches pat.data s.data

/-- A statement grants an action when some action pattern matches it. -/
def stmtAllowsAction (st : PolicyStatement) (a : String) : Bool :=
  st.actions.any (fun pat => patMatches pat a)

/-- A statement grants (action, resource) when both lists match. -/
def stmtAllows (st : PolicyStatement) (a res : String) : Bool :=
  stmtAllowsAction st a && st.resources.any (fun pat => patMatches pat res)

/-- A function's execution identity can perform the action (on any
resource): some attached inline policy has a statement matching it. -/
def fnAllowsAction (f : LambdaFunction) (a : String) : Bool :=
  f.inlinePolicies.any (fun p => p.statements.any (fun st => stmtAllowsAction st a))

/-- A function's execution identity can perform the action on the resource. -/
def fnAllows (f : LambdaFunction) (a res : String) : Bool :=
  f.inlinePolicies.any (fun p => p.statements.any (fun st => stmtAllows st a res))

/-- The ARN of object `key` in bucket `bucketName`. -/
def s3ObjectArn (bucketName key : String) : String :=
  "arn:aws:s3:::" ++ bucketName ++ "/" ++ key

/-- The function's identity may write (PutObject) the given key. -/
def fnAllowsPutKey (f : LambdaFunction) (bucketName key : String) : Bool :=
  fnAllows f "s3:PutObject" (s3ObjectArn bucketName key)

/-! ### Trigger semantics -/

/-- An S3 key filter matches a key when the key starts with its prefix. -/
def filterMatchesKey (fl : S3KeyFilter) (key : String) : Bool :=
  strHasPre fl.pre key

/-- An S3 event source fires for (event, key) when the event type is
registered and every key filter matches (S3 ANDs prefix/suffix filters). -/
def esMatches (es : S3EventSource) (e : EventType) (key : String) : Bool :=
  es.events.contains e && es.filters.all (fun fl => filterMatchesKey fl key)

/-- Whether a configured trigger fires on an S3 (event, key) pair; non-S3
triggers never fire on storage events. -/
def triggerFires : TriggerConfig → EventType → String → Bool
  | TriggerConfig.s3Event es, e, key => esMatches es e key
  | TriggerConfig.eventBridgeRule _, _, _ => false
  | TriggerConfig.directInvoke _, _, _ => false

/-- The function is invoked by the S3 (event, key) pair. -/
def fnTriggeredOn (f : LambdaFunction) (e : EventType) (key : String) : Bool :=
  f.triggers.any (fun t => triggerFires t e key)

/-- The trigger is a storage create-notification event source. -/
def isStoreCreateTrigger : TriggerConfig → Bool
  | TriggerConfig.s3Event es => es.events == [EventType.objectCreated]
  | TriggerConfig.eventBridgeRule _ => false
  | TriggerConfig.directInvoke _ => false

/-- The value bound to environment variable `k` in the function's
environment, if any. -/
def lookupEnv (f : LambdaFunction) (k : String) : Option String :=
  (f.environment.find? (fun kv => kv.fst == k)).map Prod.snd

/-- The buckets the function's S3 event sources listen on. -/
def triggerBuckets (f : LambdaFunction) : List String :=
  f.triggers.filterMap (fun t =>
    match t with
    | TriggerConfig.s3Event es => some es.bucketName
    | TriggerConfig.eventBridgeRule _ => none
    | TriggerConfig.directInvoke _ => none)

/-! ### Helper lemmas about prefix and wildcard matching -/

/-- A list is a prefix of itself followed by anything. -/
theorem listHasPre_append (p s : List Char) : listHasPre p (p ++ s) = true := by
  induction p with
  | nil => rfl
  | cons c ps ih => simp [listHasPre, ih]

/-- A string is a prefix of itself followed by anything. -/
theorem strHasPre_append (p s : String) : strHasPre p (p ++ s) = true := by
  unfold strHasPre
  rw [String.data_append]
  exact listHasPre_append _ _

/-- `splitStar` recovers the stem of a pattern ending in `*` (char 42). -/
theorem splitStar_append_star (p : List Char) : splitStar (p ++ [Char.ofNat 42]) = some p := by
  induction p with
  | nil => rfl
  | cons c ps ih =>
    cases ps with
    | nil => rfl
    | cons d ps2 =>
      simp only [List.cons_append] at ih ⊢
      rw [splitStar, ih]
      rfl

/-- A pattern ending in `*` matches exactly the lists starting with its stem. -/
theorem wildcardMatches_stem (p s : List Char) :
    wildcardMatches (p ++ [Char.ofNat 42]) s = listHasPre p s := by
  unfold wildcardMatches
  rw [splitStar_append_star]

/-- String version: `stem ++ "*"` matches exactly the strings starting with
`stem`. -/
theorem patMatches_append_star (stem res : String) :
    patMatches (stem ++ "*") res = strHasPre stem res := by
  have h : (stem ++ "*").data = stem.data ++ [Char.ofNat 42] := by
    rw [String.data_append]
  unfold patMatches strHasPre
  rw [h]
  exact wildcardMatches_stem stem.data res.data

/-- The bucket-wide object pattern `bucketArn/*` matches the ARN of every
key in the bucket. -/
theorem patMatches_bucket_any_key (b : Bucket) (key : String) :
    patMatches (bucketArn b ++ "/*") (s3ObjectArn b.name key) = true := by
  have h1 : bucketArn b ++ "/*" = (bucketArn b ++ "/") ++ "*" := by
    rw [String.append_assoc]
    rfl
  have h2 : s3ObjectArn b.name key = (bucketArn b ++ "/") ++ key := rfl
  rw [h1, h2, patMatches_append_star, strHasPre_append]

/-! ### Claim theorems -/

/-- C1, counterexample: the claim says the Scoring Stage's identity has no
call access to the transcription service, but in the stack the Transcribe
policy is attached to the `call-scoring` function as well, so its identity
can call a transcription-service action. -/
theorem c1_counterexample :
    fnAllowsAction (mkStack "us-east-1" "123456789012" "call-bucket").lambdaCallAnalysis
      "transcribe:StartTranscriptionJob" = true := by decide

/-- C1 (amended): the Transcription Stage's identity holds the store policy
and the transcription policy and has no call access to the completion API;
the Scoring Stage's identity holds the store and completion-API policies
but, in addition, call access to the transcription service, which it does
not use. -/
theorem c1_amended (region account bucketName : String) :
    fnAllowsAction (mkStack region account bucketName).lambdaAudioToText
        "bedrock:InvokeModel" = false
    ∧ fnAllowsAction (mkStack region account bucketName).lambdaAudioToText
        "bedrock:InvokeModelWithResponseStream" = false
    ∧ fnAllowsAction (mkStack region account bucketName).lambdaAudioToText
        "transcribe:StartTranscriptionJob" = true
    ∧ fnAllowsAction (mkStack region account bucketName).lambdaAudioToText
        "s3:PutObject" = true
    ∧ fnAllowsAction (mkStack region account bucketName).lambdaCallAnalysis
        "bedrock:InvokeModel" = true
    ∧ fnAllowsAction (mkStack region account bucketName).lambdaCallAnalysis
        "s3:PutObject" = true
    ∧ fnAllowsAction (mkStack region account bucketName).lambdaCallAnalysis
        "transcribe:StartTranscriptionJob" = true :=
  ⟨rfl, rfl, rfl, rfl, rfl, rfl, rfl⟩

/-- C2, counterexample: the claim says each stage's store-write permission
covers only its designated output prefix, but the shared S3 policy grants
`s3:*` on every object in the bucket, so the Transcription Stage's identity
may write a key under `scoring/`, far outside its `transcription/` output. -/
theorem c2_counterexample :
    fnAllowsPutKey (mkStack "us-east-1" "123456789012" "call-bucket").lambdaAudioToText
      "call-bucket" "scoring/out.json" = true := by decide

/-- C2 (amended): both stage identities share the single S3 policy, which
grants all S3 actions on every key of the bucket; the store-write
permission is bucket-wide, not restricted to the stage's output prefix. -/
theorem c2_amended (region account bucketName key : String) :
    fnAllowsPutKey (mkStack region account bucketName).lambdaAudioToText
        bucketName key = true
    ∧ fnAllowsPutKey (mkStack region account bucketName).lambdaCallAnalysis
        bucketName key = true := by
  have h := patMatches_bucket_any_key (createBucket bucketName) key
  constructor
  · simp only [fnAllowsPutKey, fnAllows, mkStack, createLambdaS3TriggerTranscribeFunction,
      attachInlinePolicy, applyRemovalPolicy, addEventSource, createS3Policy, createBucket,
      stmtAllows, stmtAllowsAction, List.any_cons, List.any_nil] at h ⊢
    simp [h]
    exact Or.inl rfl
  · simp only [fnAllowsPutKey, fnAllows, mkStack, createLambdaS3TriggerBedrockFunction,
      attachInlinePolicy, applyRemovalPolicy, addEventSource, createS3Policy, createBucket,
      stmtAllows, stmtAllowsAction, List.any_cons, List.any_nil] at h ⊢
    simp [h]
    exact Or.inl rfl

/-- C3: the Transcription Stage fires exactly on object-created events for
keys starting with `voices/`, and the Scoring Stage exactly on
object-created events for keys starting with `transcription/`; any other
event type or key prefix fires neither. -/
theorem c3_trigger_routing (region account bucketName : String)
    (e : EventType) (key : String) :
    fnTriggeredOn (mkStack region account bucketName).lambdaAudioToText e key
      = (e == EventType.objectCreated && strHasPre "voices/" key)
    ∧ fnTriggeredOn (mkStack region account bucketName).lambdaCallAnalysis e key
      = (e == EventType.objectCreated && strHasPre "transcription/" key) := by
  constructor <;>
    cases e <;>
      simp [fnTriggeredOn, mkStack, createLambdaS3TriggerTranscribeFunction,
        createLambdaS3TriggerBedrockFunction, attachInlinePolicy,
        applyRemovalPolicy, addEventSource, triggerFires, esMatches, filterMatchesKey,
        List.any_cons, List.any_nil, List.all_cons, List.all_nil]

/-- C4, counterexample: the claim says both the store's location identifier
and the configuration key name are injected into each stage's environment,
but each function's environment holds exactly the single `OUTPUT_BUCKET`
entry, so no configuration key name is injected. -/
theorem c4_counterexample :
    (mkStack "us-east-1" "123456789012" "call-bucket").lambdaAudioToText.environment
        = [("OUTPUT_BUCKET", "call-bucket")]
    ∧ (mkStack "us-east-1" "123456789012" "call-bucket").lambdaCallAnalysis.environment
        = [("OUTPUT_BUCKET", "call-bucket")] := by decide

/-- C4 (amended): only the store's location identifier, as the single
`OUTPUT_BUCKET` variable, is injected into each stage's environment; no
configuration key name is injected. -/
theorem c4_amended (region account bucketName : String) :
    (mkStack region account bucketName).lambdaAudioToText.environment
        = [("OUTPUT_BUCKET", bucketName)]
    ∧ (mkStack region account bucketName).lambdaCallAnalysis.environment
        = [("OUTPUT_BUCKET", bucketName)] :=
  ⟨rfl, rfl⟩

/-- C5: the Scoring Stage's invocation time budget (120 s) is strictly
greater than the Transcription Stage's (15 s). -/
theorem c5_timeout_ordering (region account bucketName : String) :
    (mkStack region account bucketName).lambdaAudioToText.timeoutSeconds
      < (mkStack region account bucketName).lambdaCallAnalysis.timeoutSeconds := by
  show (15 : Nat) < 120
  decide

/-- C6: the scoring prompt template is deployed by the config bucket
deployment, a construct distinct from both stage functions, into the same
bucket the stack creates, and every deployed file lands at a key starting
with `config/`. -/
theorem c6_config_template_location (region account bucketName file : String) :
    (mkStack region account bucketName).configDeployment.destinationBucket
        = (mkStack region account bucketName).bucket.name
    ∧ (mkStack region account bucketName).configDeployment.destinationKeyPre = "config"
    ∧ strHasPre "config/"
        (deployedKey (mkStack region account bucketName).configDeployment file) = true
    ∧ (mkStack region account bucketName).configDeployment.sources = ["./config"] := by
  refine ⟨rfl, rfl, ?_, rfl⟩
  have h : deployedKey (mkStack region account bucketName).configDeployment file
      = "config/" ++ file := by
    show ("config" ++ "/") ++ file = "config/" ++ file
    rfl
  rw [h, strHasPre_append]

/-- C7: stored blobs are retained indefinitely: the bucket carries no
lifecycle rule scheduling deletion and is retained on stack removal, the
deployed config objects are retained on delete, while both stage functions
are destroyable — so the store and its `config/` objects survive removal of
the processing stages. -/
theorem c7_retention (region account bucketName : String) :
    (mkStack region account bucketName).bucket.removalPolicy = RemovalPolicy.retain
    ∧ (mkStack region account bucketName).bucket.lifecycleRules = []
    ∧ (mkStack region account bucketName).configDeployment.retainOnDelete = true
    ∧ (mkStack region account bucketName).lambdaAudioToText.removalPolicy
        = RemovalPolicy.destroy
    ∧ (mkStack region account bucketName).lambdaCallAnalysis.removalPolicy
        = RemovalPolicy.destroy :=
  ⟨rfl, rfl, rfl, rfl, rfl⟩

/-- C8: each stage's only configured invocation path is a single storage
object-created event source; neither function has an EventBridge rule or a
direct-invocation trigger, so the store is the sole coordination medium. -/
theorem c8_storage_only_triggers (region account bucketName : String) :
    (mkStack region account bucketName).lambdaAudioToText.triggers.all
        isStoreCreateTrigger = true
    ∧ (mkStack region account bucketName).lambdaAudioToText.triggers.length = 1
    ∧ (mkStack region account bucketName).lambdaCallAnalysis.triggers.all
        isStoreCreateTrigger = true
    ∧ (mkStack region account bucketName).lambdaCallAnalysis.triggers.length = 1 :=
  ⟨rfl, rfl, rfl, rfl⟩

/-- C9: both stages operate on the one bucket the stack creates: each
function's `OUTPUT_BUCKET` environment value and the bucket its S3 event
source listens on are the stack bucket's name. -/
theorem c9_single_bucket (region account bucketName : String) :
    lookupEnv (mkStack region account bucketName).lambdaAudioToText "OUTPUT_BUCKET"
        = some (mkStack region account bucketName).bucket.name
    ∧ lookupEnv (mkStack region account bucketName).lambdaCallAnalysis "OUTPUT_BUCKET"
        = some (mkStack region account bucketName).bucket.name
    ∧ triggerBuckets (mkStack region account bucketName).lambdaAudioToText
        = [(mkStack region account bucketName).bucket.name]
    ∧ triggerBuckets (mkStack region account bucketName).lambdaCallAnalysis
        = [(mkStack region account bucketName).bucket.name] :=
  ⟨rfl, rfl, rfl, rfl⟩

/-- C10: the Bedrock policy's sole resource pattern is the unscoped
wildcard `*`, which matches every resource, while the Transcribe policy's
sole resource pattern matches exactly the resources whose ARN lies in the
stack's own region and account. -/
theorem c10_policy_scopes (region account bucketName : String) :
    ((mkStack region account bucketName).bedrockRuntimePolicy.statements.map
        (fun st => st.resources)) = [["*"]]
    ∧ (∀ res : String, patMatches "*" res = true)
    ∧ ((mkStack region account bucketName).transcribePolicy.statements.map
        (fun st => st.resources))
        = [["arn:aws:transcribe:" ++ region ++ ":" ++ account ++ ":*"]]
    ∧ (∀ res : String,
        patMatches ("arn:aws:transcribe:" ++ region ++ ":" ++ account ++ ":*") res
          = strHasPre ("arn:aws:transcribe:" ++ region ++ ":" ++ account ++ ":") res) := by
  refine ⟨rfl, fun res => rfl, rfl, fun res => ?_⟩
  have h : "arn:aws:transcribe:" ++ region ++ ":" ++ account ++ ":*"
      = ("arn:aws:transcribe:" ++ region ++ ":" ++ account ++ ":") ++ "*" := by
    simp only [String.append_assoc]
    rfl
  rw [h, patMatches_append_star]
